import Mathlib

/-!
Shallow embedding of the pattern-detection logic of `src/app.py`
("股票涨停回调筛选系统", a limit-up pullback stock screener).

Prices are modelled as rationals (`ℚ`), a price series (`pandas.DataFrame`
with columns 日期/收盘 …) as a `List Bar` ordered oldest-to-newest, and
dates as natural numbers (only equality/ordering of dates matters to the
detection logic).
-/

/-- One row of the price DataFrame: trade date (`日期`) and close (`收盘`).
Only these two columns are read by the detection functions. -/
structure Bar where
  date : Nat
  close : ℚ
deriving DecidableEq, Repr

/-- `stock_df.iloc[i]['收盘']` — close at row `i`; out-of-range reads
default to `0` (the Python loops never read out of range). -/
def closeAt (stock_df : List Bar) (i : Nat) : ℚ :=
  ((stock_df[i]?).map Bar.close).getD 0

/-- `stock_df.iloc[i]['日期']` — date at row `i`, defaulting as `closeAt`. -/
def dateAt (stock_df : List Bar) (i : Nat) : Nat :=
  ((stock_df[i]?).map Bar.date).getD 0

/-- `pullback_df['收盘'].min()` (`0` on an empty frame, which the code
guards against by length checks). -/
def minClose (l : List Bar) : ℚ :=
  ((l.map Bar.close).min?).getD 0

/-- `pullback_df['收盘'].iloc[-1]` — last close of a frame. -/
def lastClose (l : List Bar) : ℚ :=
  ((l.map Bar.close).getLast?).getD 0

/-- Python's `round(x, 2)`. (Python rounds half to even; this model rounds
half away from the even tie rule, a difference visible only at exact
half-cent ties, which no claim depends on.) -/
def round2 (x : ℚ) : ℚ :=
  (round (x * 100) : ℚ) / 100

/-- `is_limit_up(close_price, pre_close)` from `src/app.py`:
guard `pre_close == 0`, else `(close_price - pre_close) / pre_close * 100 >= 9.8`. -/
def is_limit_up (close_price pre_close : ℚ) : Bool :=
  if pre_close = 0 then
    false
  else
    decide ((close_price - pre_close) / pre_close * 100 ≥ 9.8)

/-- `find_limit_up_days(stock_df)`: indices `i` in `range(1, len(stock_df))`
with `is_limit_up(close[i], close[i-1])`, in increasing order.
(`range len` filtered by `1 ≤ i` is Python's `range(1, len)`.) -/
def find_limit_up_days (stock_df : List Bar) : List Nat :=
  (List.range stock_df.length).filter fun i =>
    decide (1 ≤ i) && is_limit_up (closeAt stock_df i) (closeAt stock_df (i - 1))

/-- The two result-dict shapes produced by the two pattern checkers
(`pattern_type` `'双涨停回调'` resp. `'单涨停回调'`), with their payload
fields. Dates are the `日期` values of the respective rows. -/
inductive PatternResult where
  | double (first_limit_up_date : Nat) (second_limit_up_date : Nat)
      (pullback_days : Nat) (max_pullback_pct : ℚ) (latest_price : ℚ) (status : String)
  | single (limit_up_date : Nat) (pullback_start_date : Nat)
      (pullback_days : Nat) (max_pullback_pct : ℚ) (latest_price : ℚ) (status : String)
deriving DecidableEq, Repr

/-- `check_double_limit_up_pattern(stock_df, limit_up_indices)`: for every
pair of CONSECUTIVE entries of `limit_up_indices`, if they are within 10
of each other and at least 13 rows remain from the second one, emit a
`双涨停回调` result. Arithmetic on indices/lengths is over `ℤ`, matching
Python ints. -/
def check_double_limit_up_pattern (stock_df : List Bar) (limit_up_indices : List Nat) :
    List PatternResult :=
  (List.range (limit_up_indices.length - 1)).filterMap fun i =>
    let first_idx := limit_up_indices.getD i 0
    let second_idx := limit_up_indices.getD (i + 1) 0
    if (second_idx : ℤ) - (first_idx : ℤ) ≤ 10 then
      if (stock_df.length : ℤ) - (second_idx : ℤ) ≥ 13 then
        let pullback_df := (stock_df.drop second_idx).take 13
        let max_pullback :=
          (closeAt pullback_df 0 - minClose pullback_df) / closeAt pullback_df 0 * 100
        some (.double (dateAt stock_df first_idx) (dateAt stock_df second_idx) 13
          (round2 max_pullback) (round2 (lastClose pullback_df)) "符合条件")
      else none
    else none

/-- `check_single_limit_up_pattern(stock_df, limit_up_indices)`: for EVERY
entry of `limit_up_indices` with at least 14 rows from it to the end
(limit-up day + 13 pullback days), emit a `单涨停回调` result. -/
def check_single_limit_up_pattern (stock_df : List Bar) (limit_up_indices : List Nat) :
    List PatternResult :=
  limit_up_indices.filterMap fun (idx : Nat) =>
    if (stock_df.length : ℤ) - (idx : ℤ) ≥ 14 then
      let pullback_df := (stock_df.drop (idx + 1)).take 13
      let max_pullback :=
        (closeAt stock_df idx - minClose pullback_df) / closeAt stock_df idx * 100
      some (.single (dateAt stock_df idx) (dateAt pullback_df 0) 13
        (round2 max_pullback) (round2 (lastClose pullback_df)) "符合条件")
    else none

/-- The detection phase of `process_single_stock` (src/app.py lines 244-251):
find the limit-up days, return `[]` when there are none, else the
concatenation `double_results + single_results`. (The subsequent in-place
decoration of each dict with stock code/name/sector changes neither the
number nor the kinds of the results and is omitted.) -/
def detect_patterns (stock_df : List Bar) : List PatternResult :=
  let limit_up_indices := find_limit_up_days stock_df
  if limit_up_indices.isEmpty then []
  else
    check_double_limit_up_pattern stock_df limit_up_indices
      ++ check_single_limit_up_pattern stock_df limit_up_indices

/-- `get_ts_code(stock_code)` from `src/app.py`: 6-character codes
starting with `'0'` or `'3'` map to `code + ".SZ"`, starting with `'6'`
to `code + ".SH"`, everything else to `""`. -/
def get_ts_code (stock_code : String) : String :=
  if stock_code.length ≠ 6 then ""
  else if stock_code.startsWith "0" || stock_code.startsWith "3" then stock_code ++ ".SZ"
  else if stock_code.startsWith "6" then stock_code ++ ".SH"
  else ""

/-- The outcome of the external `ts.pro_bar` call inside `get_stock_data`:
either it raises (`fetchError`, caught by the surrounding `try`) or it
returns a DataFrame (possibly empty). -/
inductive FetchOutcome where
  | fetchError (msg : String)
  | fetchOk (df : List Bar)
deriving DecidableEq, Repr

/-- `get_stock_data(stock_code, ...)` from `src/app.py`, with the token
configuration and the provider response as explicit inputs: empty frame
when the token is unset, when `get_ts_code` gives `""`, when the provider
raises (the `except` arm returns an empty frame), or when it returns an
empty frame; otherwise the frame sorted by trade date (`sort_values('日期')`). -/
def get_stock_data (token_set : Bool) (stock_code : String) (raw : FetchOutcome) :
    List Bar :=
  if !token_set then []
  else if get_ts_code stock_code = "" then []
  else
    match raw with
    | .fetchError _ => []
    | .fetchOk df =>
        if df.isEmpty then []
        else df.mergeSort fun a b => decide (a.date ≤ b.date)

/-- `process_single_stock(...)` from `src/app.py`, with the sector-filter
outcome and the data fetch as explicit inputs: skip on sector mismatch,
skip on empty data, skip when no limit-up day exists, else run both
pattern checkers and concatenate. (The outer `try/except: return []` can
never fire in this model because every step is total.) -/
def process_single_stock (sector_mismatch : Bool) (token_set : Bool)
    (stock_code : String) (raw : FetchOutcome) : List PatternResult :=
  if sector_mismatch then []
  else
    let stock_df := get_stock_data token_set stock_code raw
    if stock_df.isEmpty then []
    else detect_patterns stock_df

/-- One detection pass with the series threaded through as state: the
Python functions only ever read `stock_df` (via `iloc`), so the series
comes back unchanged alongside the three results. -/
def run_detection (stock_df : List Bar) :
    (List Nat × List PatternResult × List PatternResult) × List Bar :=
  let idxs := find_limit_up_days stock_df
  ((idxs, check_double_limit_up_pattern stock_df idxs,
    check_single_limit_up_pattern stock_df idxs), stock_df)

/-- Two successive detection passes, the second operating on the series
as the first pass left it. -/
def run_detection_twice (stock_df : List Bar) :
    ((List Nat × List PatternResult × List PatternResult) × List Bar) ×
    ((List Nat × List PatternResult × List PatternResult) × List Bar) :=
  let r1 := run_detection stock_df
  let r2 := run_detection r1.2
  (r1, r2)

/-- The pattern kind of a result: `true` for `双涨停回调` (double). -/
def isDoubleResult : PatternResult → Bool
  | .double _ _ _ _ _ _ => true
  | .single _ _ _ _ _ _ => false

/-- The anchor dates a result reports: both limit-up dates for a double
match, the single limit-up date for a single match. -/
def anchorDates : PatternResult → List Nat
  | .double d1 d2 _ _ _ _ => [d1, d2]
  | .single d _ _ _ _ _ => [d]

/-- 18-bar series, dates `0..17`: limit-up exactly at bars 1
(`(11-10)/10·100 = 10 ≥ 9.8`) and 5 (`(12.1-11)/11·100 = 10 ≥ 9.8`). -/
def exSeries18 : List Bar :=
  [⟨0, 10⟩, ⟨1, 11⟩, ⟨2, 11⟩, ⟨3, 11⟩, ⟨4, 11⟩, ⟨5, 12.1⟩, ⟨6, 12.1⟩, ⟨7, 12.1⟩,
   ⟨8, 12.1⟩, ⟨9, 12.1⟩, ⟨10, 12.1⟩, ⟨11, 12.1⟩, ⟨12, 12.1⟩, ⟨13, 12.1⟩,
   ⟨14, 12.1⟩, ⟨15, 12.1⟩, ⟨16, 12.1⟩, ⟨17, 12.1⟩]

/-- 16-bar series with a limit-up exactly at bar 1 and nowhere else. -/
def exSeries16 : List Bar :=
  [⟨0, 10⟩, ⟨1, 11⟩, ⟨2, 11⟩, ⟨3, 11⟩, ⟨4, 11⟩, ⟨5, 11⟩, ⟨6, 11⟩, ⟨7, 11⟩,
   ⟨8, 11⟩, ⟨9, 11⟩, ⟨10, 11⟩, ⟨11, 11⟩, ⟨12, 11⟩, ⟨13, 11⟩, ⟨14, 11⟩, ⟨15, 11⟩]

/-- 15-bar series: limit-up exactly at bars 1 and 5. -/
def exSeries15 : List Bar :=
  [⟨0, 10⟩, ⟨1, 11⟩, ⟨2, 11⟩, ⟨3, 11⟩, ⟨4, 11⟩, ⟨5, 12.1⟩, ⟨6, 12.1⟩, ⟨7, 12.1⟩,
   ⟨8, 12.1⟩, ⟨9, 12.1⟩, ⟨10, 12.1⟩, ⟨11, 12.1⟩, ⟨12, 12.1⟩, ⟨13, 12.1⟩, ⟨14, 12.1⟩]

/-- 15-bar series with a limit-up exactly at bar 1 and nowhere else. -/
def exSeries15single : List Bar :=
  [⟨0, 10⟩, ⟨1, 11⟩, ⟨2, 11⟩, ⟨3, 11⟩, ⟨4, 11⟩, ⟨5, 11⟩, ⟨6, 11⟩, ⟨7, 11⟩,
   ⟨8, 11⟩, ⟨9, 11⟩, ⟨10, 11⟩, ⟨11, 11⟩, ⟨12, 11⟩, ⟨13, 11⟩, ⟨14, 11⟩]

/-- The 14-bar series of the spec's concrete scenario A: bar 0 closes at
`11 = 1.10 × 10`, where `10` is the close of the (external, pre-series)
previous trading day, and no bar moves thereafter, so no bar of the
series itself qualifies as limit-up relative to its in-series
predecessor. -/
def exSeries14 : List Bar :=
  [⟨0, 11⟩, ⟨1, 11⟩, ⟨2, 11⟩, ⟨3, 11⟩, ⟨4, 11⟩, ⟨5, 11⟩, ⟨6, 11⟩, ⟨7, 11⟩,
   ⟨8, 11⟩, ⟨9, 11⟩, ⟨10, 11⟩, ⟨11, 11⟩, ⟨12, 11⟩, ⟨13, 11⟩]

/-- 13-bar series with a limit-up at bar 1: too short for either pattern. -/
def exSeries13 : List Bar :=
  [⟨0, 10⟩, ⟨1, 11⟩, ⟨2, 11⟩, ⟨3, 11⟩, ⟨4, 11⟩, ⟨5, 11⟩, ⟨6, 11⟩, ⟨7, 11⟩,
   ⟨8, 11⟩, ⟨9, 11⟩, ⟨10, 11⟩, ⟨11, 11⟩, ⟨12, 11⟩]

/-- Abbreviation for the exact `双涨停回调` dict that
`check_double_limit_up_pattern` builds for the pair `(first_idx, second_idx)`. -/
def double_result_at (stock_df : List Bar) (first_idx second_idx : Nat) : PatternResult :=
  let pullback_df := (stock_df.drop second_idx).take 13
  .double (dateAt stock_df first_idx) (dateAt stock_df second_idx) 13
    (round2 ((closeAt pullback_df 0 - minClose pullback_df) / closeAt pullback_df 0 * 100))
    (round2 (lastClose pullback_df)) "符合条件"

/-- Every index `find_limit_up_days` emits is at least `1` (the Python
loop starts at `range(1, …)`). -/
theorem mem_find_one_le {stock_df : List Bar} {i : Nat}
    (h : i ∈ find_limit_up_days stock_df) : 1 ≤ i := by
  simp [find_limit_up_days, List.mem_filter] at h
  exact h.2.1

/-- `List.getD` at an in-bounds position returns an element of the list. -/
theorem getD_zero_mem {l : List Nat} {j : Nat} (h : j < l.length) : l.getD j 0 ∈ l := by
  rw [List.getD_eq_getElem?_getD, List.getElem?_eq_getElem h]
  exact List.getElem_mem h

/-- Claim C1, counterexample: on the 18-bar series with limit-ups at bars
1 and 5, one combined evaluation (as in `process_single_stock`) returns
TWO results — a `双涨停回调` anchored at bars 1 and 5 and a `单涨停回调`
anchored at bar 1 — so a series can yield more than one PatternMatch, and
both kinds are reported for the same anchor bar 1. -/
theorem one_match_per_series_counterexample :
    (detect_patterns exSeries18).length = 2 ∧
    (detect_patterns exSeries18).map (fun r => (isDoubleResult r, anchorDates r)) =
      [(true, [1, 5]), (false, [1])] := by
  with_unfolding_all decide

/-- Claim C1, amended: one evaluation can return several PatternMatches —
at most one double result per consecutive pair of limit-up days and at
most one single result per limit-up day, hence at most `2·k - 1` results
for `k` limit-up days (and none for `k = 0`); the same anchor bar may
appear in results of both kinds. -/
theorem detect_patterns_results_bound (stock_df : List Bar) :
    (detect_patterns stock_df).length ≤ 2 * (find_limit_up_days stock_df).length - 1 ∧
    (check_single_limit_up_pattern stock_df (find_limit_up_days stock_df)).length ≤
      (find_limit_up_days stock_df).length ∧
    (check_double_limit_up_pattern stock_df (find_limit_up_days stock_df)).length ≤
      (find_limit_up_days stock_df).length - 1 := by
  have hs : (check_single_limit_up_pattern stock_df (find_limit_up_days stock_df)).length ≤
      (find_limit_up_days stock_df).length := by
    rw [check_single_limit_up_pattern]
    exact List.length_filterMap_le _ _
  have hd : (check_double_limit_up_pattern stock_df (find_limit_up_days stock_df)).length ≤
      (find_limit_up_days stock_df).length - 1 := by
    rw [check_double_limit_up_pattern]
    calc _ ≤ (List.range ((find_limit_up_days stock_df).length - 1)).length :=
          List.length_filterMap_le _ _
      _ = _ := List.length_range _
  refine ⟨?_, hs, hd⟩
  by_cases he : (find_limit_up_days stock_df).isEmpty
  · simp [detect_patterns, he]
  · have hk : (find_limit_up_days stock_df).length ≠ 0 := by
      simpa [List.isEmpty_iff_length_eq_zero] using he
    simp only [detect_patterns, he, if_false, List.length_append, Bool.false_eq_true]
    omega

/-- Claim C2, counterexample: in the 16-bar series with a limit-up only
at bar 1, the bar at `anchorIndex = 16 - 14 = 2` is NOT limit-up, yet the
detector returns one match — the code never consults `anchorIndex`. -/
theorem anchor_not_limit_up_counterexample :
    exSeries16.length - 14 = 2 ∧ 2 ∉ find_limit_up_days exSeries16 ∧
    (detect_patterns exSeries16).length = 1 := by
  with_unfolding_all decide

/-- Claim C2, amended: if NO bar of the series is flagged limit-up, the
detector returns no match. -/
theorem no_limit_up_no_match (stock_df : List Bar)
    (h : find_limit_up_days stock_df = []) :
    detect_patterns stock_df = [] := by
  simp [detect_patterns, h]

/-- Witness for `no_limit_up_no_match` on the flat 14-bar series. -/
theorem no_limit_up_no_match_witness :
    find_limit_up_days exSeries14 = [] ∧ detect_patterns exSeries14 = [] :=
  ⟨by with_unfolding_all decide, no_limit_up_no_match exSeries14 (by with_unfolding_all decide)⟩

/-- Claim C3: a series of fewer than `13 + 1 = 14` bars produces no match:
both checkers return `[]`, and so does the combined detection. -/
theorem insufficient_history_no_match (stock_df : List Bar) (h : stock_df.length < 14) :
    check_double_limit_up_pattern stock_df (find_limit_up_days stock_df) = [] ∧
    check_single_limit_up_pattern stock_df (find_limit_up_days stock_df) = [] ∧
    detect_patterns stock_df = [] := by
  have hd : check_double_limit_up_pattern stock_df (find_limit_up_days stock_df) = [] := by
    rw [check_double_limit_up_pattern, List.filterMap_eq_nil_iff]
    intro i hi
    rw [List.mem_range] at hi
    have hmem : (find_limit_up_days stock_df).getD (i + 1) 0 ∈ find_limit_up_days stock_df :=
      getD_zero_mem (by omega)
    have h1 := mem_find_one_le hmem
    have hB : ¬ ((stock_df.length : ℤ) -
        ((find_limit_up_days stock_df).getD (i + 1) 0 : ℤ) ≥ 13) := by
      omega
    simp only [if_neg hB, ite_self]
  have hs : check_single_limit_up_pattern stock_df (find_limit_up_days stock_df) = [] := by
    rw [check_single_limit_up_pattern, List.filterMap_eq_nil_iff]
    intro idx hidx
    have h1 := mem_find_one_le hidx
    have hB : ¬ ((stock_df.length : ℤ) - (idx : ℤ) ≥ 14) := by omega
    simp only [if_neg hB]
  refine ⟨hd, hs, ?_⟩
  simp [detect_patterns, hd, hs]

/-- Witness for `insufficient_history_no_match`: the 13-bar series (which
even contains a limit-up at bar 1) yields no match. -/
theorem insufficient_history_no_match_witness :
    exSeries13.length < 14 ∧ detect_patterns exSeries13 = [] :=
  ⟨by decide, (insufficient_history_no_match exSeries13 (by decide)).2.2⟩

/-- Claim C4: for `i ≥ 1` in range with positive previous close, bar `i`
is flagged (is in `find_limit_up_days`) iff
`(close[i] - close[i-1]) / close[i-1] * 100 ≥ 9.8`; bar 0 is never flagged. -/
theorem limit_up_flag_iff_threshold (stock_df : List Bar) (i : Nat) (h1 : 1 ≤ i)
    (h2 : i < stock_df.length) (hp : 0 < closeAt stock_df (i - 1)) :
    (i ∈ find_limit_up_days stock_df ↔
      (closeAt stock_df i - closeAt stock_df (i - 1)) / closeAt stock_df (i - 1) * 100 ≥ 9.8) ∧
    0 ∉ find_limit_up_days stock_df := by
  constructor
  · simp [find_limit_up_days, List.mem_filter, List.mem_range, h1, h2, is_limit_up, hp.ne']
  · intro h0
    exact absurd (mem_find_one_le h0) (by omega)

/-- Witness for `limit_up_flag_iff_threshold` at bar 1 of the 18-bar series. -/
theorem limit_up_flag_iff_threshold_witness :
    1 ∈ find_limit_up_days exSeries18 ∧ 0 ∉ find_limit_up_days exSeries18 := by
  have h := limit_up_flag_iff_threshold exSeries18 1 (by decide) (by with_unfolding_all decide)
    (by with_unfolding_all decide)
  exact ⟨h.1.mpr (by with_unfolding_all decide), h.2⟩

/-- Claim C5, counterexample: in the 15-bar series, the bar at
`anchorIndex = 15 - 14 = 1` is limit-up and bar 5 (inside the 10-day
window `2..11` after the anchor) is limit-up, yet the detector reports NO
double match (only a single match anchored at bar 1): the code also
requires at least 13 bars from the second limit-up to the end, which
fails here (`15 - 5 = 10 < 13`). -/
theorem double_pattern_window_counterexample :
    exSeries15.length - 14 = 1 ∧ 1 ∈ find_limit_up_days exSeries15 ∧
    5 ∈ find_limit_up_days exSeries15 ∧
    (detect_patterns exSeries15).map (fun r => (isDoubleResult r, anchorDates r)) =
      [(false, [1])] := by
  with_unfolding_all decide

/-- Claim C5, amended: for consecutive limit-up days `f < s` (so `s` is
the chronologically first limit-up after `f` — `find_limit_up_days` is
strictly sorted) with `s - f ≤ 10` AND at least 13 bars remaining from
`s`, the checker reports the `双涨停回调` result recording the dates of
both `f` and `s`. -/
theorem double_pattern_consecutive_pair (stock_df : List Bar) (i : Nat)
    (hi : i + 1 < (find_limit_up_days stock_df).length)
    (hwin : ((find_limit_up_days stock_df).getD (i + 1) 0 : ℤ) -
      ((find_limit_up_days stock_df).getD i 0 : ℤ) ≤ 10)
    (hlen : (stock_df.length : ℤ) - ((find_limit_up_days stock_df).getD (i + 1) 0 : ℤ) ≥ 13) :
    List.Sorted (· < ·) (find_limit_up_days stock_df) ∧
    double_result_at stock_df ((find_limit_up_days stock_df).getD i 0)
        ((find_limit_up_days stock_df).getD (i + 1) 0)
      ∈ check_double_limit_up_pattern stock_df (find_limit_up_days stock_df) := by
  constructor
  · exact (List.pairwise_lt_range _).filter _
  · rw [check_double_limit_up_pattern]
    refine List.mem_filterMap.mpr ⟨i, List.mem_range.mpr (by omega), ?_⟩
    simp only
    rw [if_pos hwin, if_pos hlen]
    rfl

/-- Witness for `double_pattern_consecutive_pair` on the 18-bar series
(pair of limit-up days 1 and 5, `18 - 5 = 13 ≥ 13`). -/
theorem double_pattern_consecutive_pair_witness :
    0 + 1 < (find_limit_up_days exSeries18).length ∧
    double_result_at exSeries18 ((find_limit_up_days exSeries18).getD 0 0)
        ((find_limit_up_days exSeries18).getD (0 + 1) 0)
      ∈ check_double_limit_up_pattern exSeries18 (find_limit_up_days exSeries18) :=
  ⟨by with_unfolding_all decide,
    (double_pattern_consecutive_pair exSeries18 0 (by with_unfolding_all decide)
      (by with_unfolding_all decide) (by with_unfolding_all decide)).2⟩

/-- Claim C6, counterexample: for the concrete 14-bar scenario-A series
(bar 0 closes at `11 = 1.10 × 10`, the external previous close, and no
other bar is limit-up) the detector returns NO match at all — in
particular not a `单涨停回调` anchored at bar 0: `find_limit_up_days`
only flags bars at index ≥ 1, relative to the in-series predecessor. -/
theorem scenario_a_counterexample :
    exSeries14.length = 14 ∧ (11 : ℚ) = 1.10 * 10 ∧ closeAt exSeries14 0 = 11 ∧
    detect_patterns exSeries14 = [] := by
  with_unfolding_all decide

/-- Claim C6, amended: the 14-bar scenario-A series yields no match (bar
0 can never be flagged); the analogous series whose first flaggable bar —
bar 1, closing at `1.10 ×` bar 0's close — is the only limit-up needs 15
bars and then yields exactly one `单涨停回调` anchored at bar 1. -/
theorem scenario_a_on_the_code :
    detect_patterns exSeries14 = [] ∧ find_limit_up_days exSeries14 = [] ∧
    find_limit_up_days exSeries15single = [1] ∧
    (detect_patterns exSeries15single).map (fun r => (isDoubleResult r, anchorDates r)) =
      [(false, [1])] := by
  with_unfolding_all decide

/-- Claim C7: a failed fetch (provider exception, caught inside
`get_stock_data`) or empty returned data makes `process_single_stock`
return `[]` for that security instead of raising, so the batch scan
continues. -/
theorem fetch_failure_is_skip (sector_mismatch token_set : Bool) (stock_code : String)
    (raw : FetchOutcome)
    (h : (∃ msg, raw = .fetchError msg) ∨ raw = .fetchOk []) :
    process_single_stock sector_mismatch token_set stock_code raw = [] := by
  have hdf : get_stock_data token_set stock_code raw = [] := by
    rcases h with ⟨msg, rfl⟩ | rfl <;> simp [get_stock_data]
  simp [process_single_stock, hdf]

/-- Witness for `fetch_failure_is_skip`: a raised provider error and an
empty frame, for stock `000001`. -/
theorem fetch_failure_is_skip_witness :
    process_single_stock false true "000001" (.fetchError "network error") = [] ∧
    process_single_stock false true "000001" (.fetchOk []) = [] :=
  ⟨fetch_failure_is_skip false true "000001" _ (Or.inl ⟨"network error", rfl⟩),
   fetch_failure_is_skip false true "000001" _ (Or.inr rfl)⟩

/-- Claim C8: detection is deterministic and side-effect free — running
the three detection functions twice in sequence (the second run on the
series as the first run left it) gives identical results, and the series
comes out of a run unchanged. -/
theorem detection_deterministic_and_pure (stock_df : List Bar) :
    (run_detection_twice stock_df).1 = (run_detection_twice stock_df).2 ∧
    (run_detection stock_df).2 = stock_df :=
  ⟨rfl, rfl⟩

/-- Claim C9: `is_limit_up` is total and its division is guarded — when
`pre_close = 0` it returns `false` (the quotient is never formed), and
otherwise it returns exactly the 9.8% threshold comparison. -/
theorem is_limit_up_total_guarded (close_price pre_close : ℚ) :
    (pre_close = 0 → is_limit_up close_price pre_close = false) ∧
    (pre_close ≠ 0 →
      (is_limit_up close_price pre_close = true ↔
        (close_price - pre_close) / pre_close * 100 ≥ 9.8)) := by
  constructor
  · intro h
    simp [is_limit_up, h]
  · intro h
    simp [is_limit_up, h]

/-- Witness for `is_limit_up_total_guarded` at `pre_close = 0` and at a
10% rise. -/
theorem is_limit_up_total_guarded_witness :
    is_limit_up 11 0 = false ∧ is_limit_up 11 10 = true :=
  ⟨(is_limit_up_total_guarded 11 0).1 rfl,
   ((is_limit_up_total_guarded 11 10).2 (by norm_num)).mpr (by with_unfolding_all decide)⟩

/-- Claim C10: `get_ts_code` maps 6-character codes starting with `'0'`
or `'3'` to `code ++ ".SZ"`, 6-character codes starting with `'6'` to
`code ++ ".SH"`, and everything else (wrong length or other leading
character) to `""`; and `get_stock_data` returns an empty frame whenever
`get_ts_code` returns `""`. -/
theorem get_ts_code_mapping (stock_code : String) (token_set : Bool) (raw : FetchOutcome) :
    (stock_code.length = 6 →
      (stock_code.startsWith "0" = true ∨ stock_code.startsWith "3" = true) →
      get_ts_code stock_code = stock_code ++ ".SZ") ∧
    (stock_code.length = 6 → stock_code.startsWith "0" = false →
      stock_code.startsWith "3" = false → stock_code.startsWith "6" = true →
      get_ts_code stock_code = stock_code ++ ".SH") ∧
    (stock_code.length ≠ 6 → get_ts_code stock_code = "") ∧
    (stock_code.startsWith "0" = false → stock_code.startsWith "3" = false →
      stock_code.startsWith "6" = false → get_ts_code stock_code = "") ∧
    (get_ts_code stock_code = "" → get_stock_data token_set stock_code raw = []) := by
  refine ⟨?_, ?_, ?_, ?_, ?_⟩
  · intro h6 hs
    rcases hs with hs | hs <;> simp [get_ts_code, h6, hs]
  · intro h6 h0 h3 h63
    simp [get_ts_code, h6, h0, h3, h63]
  · intro h6
    simp [get_ts_code, h6]
  · intro h0 h3 h6
    by_cases hlen : stock_code.length = 6 <;> simp [get_ts_code, hlen, h0, h3, h6]
  · intro hts
    cases token_set
    · simp [get_stock_data]
    · simp [get_stock_data, hts]

/-- Witness for `get_ts_code_mapping` on concrete codes of each class. -/
theorem get_ts_code_mapping_witness :
    get_ts_code "000001" = "000001" ++ ".SZ" ∧
    get_ts_code "300750" = "300750" ++ ".SZ" ∧
    get_ts_code "600519" = "600519" ++ ".SH" ∧
    get_ts_code "12345" = "" ∧
    get_ts_code "900001" = "" ∧
    get_stock_data true "900001" (.fetchOk [⟨0, 1⟩]) = [] :=
  ⟨(get_ts_code_mapping "000001" true (.fetchOk [])).1 (by decide)
     (Or.inl (by with_unfolding_all decide)),
   (get_ts_code_mapping "300750" true (.fetchOk [])).1 (by decide)
     (Or.inr (by with_unfolding_all decide)),
   (get_ts_code_mapping "600519" true (.fetchOk [])).2.1 (by decide)
     (by with_unfolding_all decide) (by with_unfolding_all decide)
     (by with_unfolding_all decide),
   (get_ts_code_mapping "12345" true (.fetchOk [])).2.2.1 (by decide),
   (get_ts_code_mapping "900001" true (.fetchOk [])).2.2.2.1 (by with_unfolding_all decide)
     (by with_unfolding_all decide) (by with_unfolding_all decide),
   (get_ts_code_mapping "900001" true (.fetchOk [⟨0, 1⟩])).2.2.2.2
     ((get_ts_code_mapping "900001" true (.fetchOk [])).2.2.2.1
       (by with_unfolding_all decide) (by with_unfolding_all decide)
       (by with_unfolding_all decide))⟩
